import Mathlib

/-!
Shallow embedding of the asynchronous import-task tracker of
`src/clients/python/enhanced_geometry_client.py` (class
`EnhancedGeometryClient`), together with theorems settling the frozen
claims about it.

Modelling conventions:
* Python dicts (`import_tasks`, `progress_callbacks`) are association
  lists in insertion order with `dictGet` / `dictSet` mirroring item
  lookup and assignment (assignment replaces the value of an existing
  key in place, otherwise appends, exactly like a Python dict).
* `concurrent.futures.Future` is modelled by `FutureState`, with
  `futureDone` for `Future.done()`, `futureCancelSucceeds` for the
  boolean returned by `Future.cancel()`, and `futureAfterCancel` for
  the state transition `Future.cancel()` performs.
* The gRPC stub call `self.stub.ImportModelFile(request)` is external;
  its outcome is a parameter of the worker: `Except.ok response` when
  the call returns, `Except.error e` when it raises (with `e` the
  exception text `str(e)`).
* Python float progress literals `0.1, 0.3, 0.8, 1.0` are embedded as
  exact rationals; only assignment and comparison of these constants
  occurs, never float arithmetic.
* `print` output that matters to a claim (the swallowed observer
  fault) is returned as data; `start_time` (a wall-clock capture used
  only informationally) is not modelled.
-/

/-- One state of a `concurrent.futures.Future`: not yet started,
currently executing, cancelled, or finished running. -/
inductive FutureState where
  | pending
  | running
  | cancelled
  | finished
  deriving DecidableEq, Repr

/-- `Future.done()`: true once the future is cancelled or has finished
running. -/
def futureDone : FutureState → Bool
  | .pending => false
  | .running => false
  | .cancelled => true
  | .finished => true

/-- The boolean returned by `Future.cancel()`: false exactly when the
call is currently being executed or already finished and so cannot be
cancelled. -/
def futureCancelSucceeds : FutureState → Bool
  | .pending => true
  | .running => false
  | .cancelled => true
  | .finished => false

/-- The state transition performed by `Future.cancel()`: a pending
future becomes cancelled, any other state is unchanged. -/
def futureAfterCancel : FutureState → FutureState
  | .pending => .cancelled
  | f => f

/-- `ImportTask` dataclass (lines 26-39 of the source). `future` is
`None` until `import_model_async` assigns the submitted future.
`start_time` (wall-clock, informational only) is omitted. -/
structure ImportTask where
  id : String
  file_path : String
  file_name : String
  format : String := ""
  future : Option FutureState := none
  progress : ℚ := 0.0
  is_active : Bool := true
  status_message : String := "Starting..."
  shape_ids : List String := []
  error : Option String := none
  deriving DecidableEq, Repr

/-- `ModelImportOptions` dataclass (lines 42-50 of the source). -/
structure ModelImportOptions where
  auto_detect_format : Bool := true
  force_format : String := ""
  import_colors : Bool := true
  import_names : Bool := true
  precision : ℚ := 0.01
  merge_shapes : Bool := false
  deriving DecidableEq, Repr

/-- `ModelImportResult` dataclass (lines 53-64 of the source). -/
structure ModelImportResult where
  success : Bool := false
  message : String := ""
  detected_format : String := ""
  shape_ids : List String := []
  filename : String := ""
  file_size : Int := 0
  shape_count : Int := 0
  format : String := ""
  creation_time : String := ""
  deriving DecidableEq, Repr

/-- The optional `file_info` sub-message of the gRPC response. -/
structure FileInfo where
  filename : String
  file_size : Int
  shape_count : Int
  format : String
  creation_time : String
  deriving DecidableEq, Repr

/-- The gRPC response of `ImportModelFile`, as read by the worker:
`success`, `message`, `detected_format`, `shape_ids` and the optional
`file_info`. -/
structure ImportModelResponse where
  success : Bool
  message : String
  detected_format : String
  shape_ids : List String
  file_info : Option FileInfo
  deriving DecidableEq, Repr

/-- The protobuf options message built inside the worker. -/
structure GrpcModelImportOptions where
  auto_detect_format : Bool
  force_format : String
  import_colors : Bool
  import_names : Bool
  precision : ℚ
  merge_shapes : Bool
  deriving DecidableEq, Repr

/-- The `ModelFileRequest` protobuf message built inside the worker. -/
structure ModelFileRequest where
  file_path : String
  options : GrpcModelImportOptions
  deriving DecidableEq, Repr

/-- A progress observer: receives the current task snapshot and either
returns normally or raises (the `Except.error` carries the exception
text). -/
abbrev ProgressCallback := ImportTask → Except String Unit

/-- The mutable tracker state of an `EnhancedGeometryClient`: the task
registry, the monotonic task counter, and the observer registry.
Connection fields (channel, stub, executor, metadata) are external. -/
structure ClientState where
  import_tasks : List (String × ImportTask) := []
  task_counter : Nat := 0
  progress_callbacks : List (String × ProgressCallback) := []

/-- Dict item lookup: the value at the first entry with the given key. -/
def dictGet {α : Type} (l : List (String × α)) (k : String) : Option α :=
  match l with
  | [] => none
  | (k', v) :: rest => if k' = k then some v else dictGet rest k

/-- Dict item assignment: replace the value at an existing key,
otherwise append the new binding (Python dicts keep insertion order). -/
def dictSet {α : Type} (l : List (String × α)) (k : String) (v : α) :
    List (String × α) :=
  match l with
  | [] => [(k, v)]
  | (k', v') :: rest =>
      if k' = k then (k, v) :: rest else (k', v') :: dictSet rest k v

/-- `Path(p).name`: the component after the last slash. -/
def pathName (p : String) : String :=
  String.mk ((p.toList.reverse.takeWhile fun c => c ≠ '/').reverse)

/-- `Path(p).suffix`: the final `"."`-prefixed extension of the name,
empty when the name has no dot, only a leading dot, or a trailing dot. -/
def pathSuffix (p : String) : String :=
  let cs := (pathName p).toList
  let ext := cs.reverse.takeWhile fun c => c ≠ '.'
  if 0 < ext.length ∧ ext.length + 1 < cs.length then
    "." ++ String.mk ext.reverse
  else ""

/-- `s.upper().replace('.', '')` for a suffix string: drop the dots and
upper-case the rest. -/
def upperNoDots (s : String) : String :=
  String.mk ((s.toList.filter fun c => c ≠ '.').map Char.toUpper)

/-- `import_model_async` (lines 188-219): allocate the next counter
value, build the task id `"import_" + counter`, create the task record,
register it, register the optional progress callback, and submit the
worker (the stored future starts out pending).  Returns the new state
and the task id. `options` is forwarded to the worker unchanged and
does not affect the tracker state.  -/
def import_model_async (s : ClientState) (file_path : String)
    (progress_callback : Option ProgressCallback) : ClientState × String :=
  let task_counter := s.task_counter + 1
  let task_id := "import_" ++ toString task_counter
  let task : ImportTask :=
    { id := task_id
      file_path := file_path
      file_name := pathName file_path
      format := upperNoDots (pathSuffix file_path)
      future := some .pending }
  let import_tasks := dictSet s.import_tasks task_id task
  let progress_callbacks :=
    match progress_callback with
    | some cb => dictSet s.progress_callbacks task_id cb
    | none => s.progress_callbacks
  ({ s with
      task_counter := task_counter
      import_tasks := import_tasks
      progress_callbacks := progress_callbacks },
   task_id)

/-- The `ModelFileRequest` built by the worker (lines 229-239). It is
handed to the external stub; the worker's `remote` parameter below is
the outcome of `self.stub.ImportModelFile` on this request. -/
def buildModelFileRequest (task : ImportTask) (options : ModelImportOptions) :
    ModelFileRequest :=
  { file_path := task.file_path
    options :=
      { auto_detect_format := options.auto_detect_format
        force_format := options.force_format
        import_colors := options.import_colors
        import_names := options.import_names
        precision := options.precision
        merge_shapes := options.merge_shapes } }

/-- `_import_model_worker` (lines 221-286). `remote` is the outcome of
the external gRPC call: `Except.ok response` when it returns,
`Except.error e` when it raises with text `e` (the only fallible
operation inside the `try`).  Returns the final task record, the
worker's own outcome (`Except.ok` for a returned `ModelImportResult`,
`Except.error` for the re-raised exception), and the list of task
snapshots passed to `_notify_progress`, in order. -/
def _import_model_worker (task : ImportTask) (options : ModelImportOptions)
    (remote : Except String ImportModelResponse) :
    ImportTask × Except String ModelImportResult × List ImportTask :=
  let t1 : ImportTask :=
    { task with status_message := "Preparing import...", progress := 0.1 }
  let _request : ModelFileRequest := buildModelFileRequest t1 options
  let t2 : ImportTask :=
    { t1 with status_message := "Sending to server...", progress := 0.3 }
  match remote with
  | .error e =>
      let tE : ImportTask :=
        { t2 with
            error := some e
            status_message := "Exception: " ++ e
            is_active := false }
      (tE, .error e, [t1, t2, tE])
  | .ok response =>
      let t3 : ImportTask := { t2 with progress := 0.8 }
      if response.success then
        let base : ModelImportResult :=
          { success := true
            message := response.message
            detected_format := response.detected_format
            shape_ids := response.shape_ids }
        let result : ModelImportResult :=
          match response.file_info with
          | some file_info =>
              { base with
                  filename := file_info.filename
                  file_size := file_info.file_size
                  shape_count := file_info.shape_count
                  format := file_info.format
                  creation_time := file_info.creation_time }
          | none => base
        let t4 : ImportTask :=
          { t3 with
              shape_ids := result.shape_ids
              status_message :=
                "Import completed: " ++ toString result.shape_ids.length
                  ++ " shapes"
              progress := 1.0
              is_active := false }
        (t4, .ok result, [t1, t2, t3, t4])
      else
        let result : ModelImportResult := { message := response.message }
        let t4 : ImportTask :=
          { t3 with
              error := some response.message
              status_message := "Import failed: " ++ response.message
              is_active := false }
        (t4, .ok result, [t1, t2, t3, t4])

/-- `_notify_progress` (lines 288-294): look up the callback registered
under the task's id and invoke it; an exception it raises is caught and
only printed.  Returns the (unchanged) tracker state and the printed
error line, if any. -/
def _notify_progress (s : ClientState) (task : ImportTask) :
    ClientState × Option String :=
  match dictGet s.progress_callbacks task.id with
  | none => (s, none)
  | some cb =>
      match cb task with
      | .ok _ => (s, none)
      | .error e =>
          (s, some ("Progress callback error for " ++ task.id ++ ": " ++ e))

/-- `get_import_task_status` (lines 296-298). -/
def get_import_task_status (s : ClientState) (task_id : String) :
    Option ImportTask :=
  dictGet s.import_tasks task_id

/-- `cancel_import_task` (lines 300-309): when the id is registered and
the task has a future that is not yet done, call `future.cancel()`
(whose boolean result the code ignores), overwrite the status message
with "Cancelled", mark the task inactive, and return true; in every
other case return false and change nothing. -/
def cancel_import_task (s : ClientState) (task_id : String) :
    ClientState × Bool :=
  match dictGet s.import_tasks task_id with
  | none => (s, false)
  | some task =>
      match task.future with
      | none => (s, false)
      | some f =>
          if futureDone f then (s, false)
          else
            let task' : ImportTask :=
              { task with
                  future := some (futureAfterCancel f)
                  status_message := "Cancelled"
                  is_active := false }
            ({ s with import_tasks := dictSet s.import_tasks task_id task' },
             true)

/-- `get_active_tasks` (lines 311-313). -/
def get_active_tasks (s : ClientState) : List ImportTask :=
  (s.import_tasks.filter fun p => p.2.is_active).map Prod.snd

/-- The Python exception raised by `wait_for_import_completion`:
`ValueError` (unknown id), `TimeoutError` (deadline passed), or
`RuntimeError` (missing future, or the worker's fault wrapped). -/
inductive PyError where
  | valueError (msg : String)
  | timeoutError (msg : String)
  | runtimeError (msg : String)
  deriving DecidableEq, Repr

/-- `wait_for_import_completion` (lines 335-349). `future_result` is
what `task.future.result(timeout)` does within the deadline: `none`
when it raises `concurrent.futures.TimeoutError`, `some (Except.ok r)`
when the worker returned `r`, `some (Except.error e)` when the worker
re-raised an exception with text `e`.  The tracker state is returned
unchanged: the method performs no mutation. -/
def wait_for_import_completion (s : ClientState) (task_id : String)
    (future_result : Option (Except String ModelImportResult)) :
    ClientState × Except PyError ModelImportResult :=
  match dictGet s.import_tasks task_id with
  | none =>
      (s, .error (.valueError ("Task " ++ task_id ++ " not found")))
  | some task =>
      match task.future with
      | none =>
          (s, .error (.runtimeError
            ("Task " ++ task_id ++ " has no associated future")))
      | some _ =>
          match future_result with
          | none =>
              (s, .error (.timeoutError
                ("Import task " ++ task_id ++ " timed out")))
          | some (.ok result) => (s, .ok result)
          | some (.error e) =>
              (s, .error (.runtimeError
                ("Import task " ++ task_id ++ " failed: " ++ e)))

/-- The pruning condition of `cleanup_completed_tasks`:
`not task.is_active and (not task.future or task.future.done())`. -/
def taskCompleted (t : ImportTask) : Bool :=
  !t.is_active &&
    (match t.future with
     | none => true
     | some f => futureDone f)

/-- `cleanup_completed_tasks` (lines 351-365): collect the ids of tasks
that are inactive and whose future is absent or done, delete those ids
from the task registry and from the callback registry.  The Python
method has no return statement, so its value is `None` (embedded as
`none`); the removed count is only printed. -/
def cleanup_completed_tasks (s : ClientState) : ClientState × Option Nat :=
  let completed_tasks :=
    (s.import_tasks.filter fun p => taskCompleted p.2).map Prod.fst
  let import_tasks :=
    s.import_tasks.filter fun p => !(completed_tasks.contains p.1)
  let progress_callbacks :=
    s.progress_callbacks.filter fun p => !(completed_tasks.contains p.1)
  ({ s with
      import_tasks := import_tasks
      progress_callbacks := progress_callbacks },
   none)

/-! ### Association-list lemmas shared by the claim theorems -/

theorem dictGet_dictSet_self {α : Type} (l : List (String × α)) (k : String)
    (v : α) : dictGet (dictSet l k v) k = some v := by
  induction l with
  | nil => simp [dictSet, dictGet]
  | cons p rest ih =>
      obtain ⟨k', v'⟩ := p
      by_cases h : k' = k
      · simp [dictSet, dictGet, h]
      · simp [dictSet, dictGet, h, ih]

theorem dictGet_dictSet_ne {α : Type} (l : List (String × α)) {k k' : String}
    (v : α) (h : k ≠ k') : dictGet (dictSet l k v) k' = dictGet l k' := by
  induction l with
  | nil => simp [dictSet, dictGet, h]
  | cons p rest ih =>
      obtain ⟨k'', v''⟩ := p
      by_cases hk : k'' = k
      · subst hk
        simp [dictSet, dictGet, h]
      · simp [dictSet, dictGet, hk, ih]

theorem mem_dictSet {α : Type} {l : List (String × α)} {k : String} {v : α}
    {p : String × α} (h : p ∈ dictSet l k v) : p ∈ l ∨ p = (k, v) := by
  induction l with
  | nil => simpa [dictSet] using h
  | cons q rest ih =>
      obtain ⟨k', v'⟩ := q
      by_cases hk : k' = k
      · subst hk
        rw [show dictSet ((k', v') :: rest) k' v =
              if k' = k' then (k', v) :: rest
              else (k', v') :: dictSet rest k' v from rfl, if_pos rfl] at h
        rcases List.mem_cons.mp h with h1 | h1
        · exact Or.inr h1
        · exact Or.inl (List.mem_cons_of_mem _ h1)
      · rw [show dictSet ((k', v') :: rest) k v =
              if k' = k then (k, v) :: rest
              else (k', v') :: dictSet rest k v from rfl, if_neg hk] at h
        rcases List.mem_cons.mp h with h1 | h1
        · exact Or.inl (by simp [h1])
        · rcases ih h1 with h2 | h2
          · exact Or.inl (List.mem_cons_of_mem _ h2)
          · exact Or.inr h2

theorem dictGet_mem {α : Type} {l : List (String × α)} {k : String} {v : α}
    (h : dictGet l k = some v) : (k, v) ∈ l := by
  induction l with
  | nil => simp [dictGet] at h
  | cons p rest ih =>
      obtain ⟨k', v'⟩ := p
      by_cases hk : k' = k
      · rw [show dictGet ((k', v') :: rest) k =
            if k' = k then some v' else dictGet rest k from rfl,
          if_pos hk] at h
        obtain rfl := Option.some.inj h
        subst hk
        exact List.mem_cons_self _ _
      · rw [show dictGet ((k', v') :: rest) k =
            if k' = k then some v' else dictGet rest k from rfl,
          if_neg hk] at h
        exact List.mem_cons_of_mem _ (ih h)

theorem dictGet_eq_of_mem_nodup {α : Type} {l : List (String × α)}
    (hnd : (l.map Prod.fst).Nodup) {k : String} {v : α} (hmem : (k, v) ∈ l) :
    dictGet l k = some v := by
  induction l with
  | nil => simp at hmem
  | cons p rest ih =>
      obtain ⟨k', v'⟩ := p
      simp only [List.map_cons, List.nodup_cons] at hnd
      rcases List.mem_cons.mp hmem with h | h
      · injection h with h1 h2
        subst h1
        subst h2
        simp [dictGet]
      · by_cases hk : k' = k
        · exact absurd (hk ▸ (List.mem_map_of_mem Prod.fst h : k ∈ _))
            (by simpa [hk] using hnd.1)
        · simpa [dictGet, hk] using ih hnd.2 h

theorem dictGet_filter_of_false {α : Type} {l : List (String × α)}
    {pred : String × α → Bool} {k : String}
    (h : ∀ v, pred (k, v) = false) : dictGet (l.filter pred) k = none := by
  induction l with
  | nil => simp [dictGet]
  | cons p rest ih =>
      obtain ⟨k', v'⟩ := p
      by_cases hk : k' = k
      · subst hk
        simp [List.filter_cons, h v', ih]
      · by_cases hp : pred (k', v')
        · simp [List.filter_cons, hp, dictGet, hk, ih]
        · simp [List.filter_cons, hp, ih]

theorem dictGet_filter_of_get {α : Type} {l : List (String × α)}
    {pred : String × α → Bool} {k : String} {v : α}
    (hget : dictGet l k = some v) (hp : pred (k, v) = true) :
    dictGet (l.filter pred) k = some v := by
  induction l with
  | nil => simp [dictGet] at hget
  | cons p rest ih =>
      obtain ⟨k', v'⟩ := p
      by_cases hk : k' = k
      · rw [show dictGet ((k', v') :: rest) k =
            if k' = k then some v' else dictGet rest k from rfl,
          if_pos hk] at hget
        obtain rfl := Option.some.inj hget
        subst hk
        simp [List.filter_cons, hp, dictGet]
      · rw [show dictGet ((k', v') :: rest) k =
            if k' = k then some v' else dictGet rest k from rfl,
          if_neg hk] at hget
        by_cases hq : pred (k', v')
        · simp [List.filter_cons, hq, dictGet, hk, ih hget]
        · simp [List.filter_cons, hq, ih hget]

theorem dictGet_filter_of_true {α : Type} {l : List (String × α)}
    {pred : String × α → Bool} {k : String}
    (h : ∀ v, pred (k, v) = true) :
    dictGet (l.filter pred) k = dictGet l k := by
  induction l with
  | nil => simp
  | cons p rest ih =>
      obtain ⟨k', v'⟩ := p
      by_cases hk : k' = k
      · subst hk
        simp [List.filter_cons, h v', dictGet]
      · by_cases hq : pred (k', v')
        · simp [List.filter_cons, hq, dictGet, hk, ih]
        · simp [List.filter_cons, hq, dictGet, hk, ih]

/-! ### The three task states of the specification -/

/-- Active: the task is still running and carries no result yet. -/
def StateActive (t : ImportTask) : Prop :=
  t.is_active = true ∧ t.error = none ∧ t.shape_ids = []

/-- Succeeded: the task has terminated and `error` is absent. -/
def StateSucceeded (t : ImportTask) : Prop :=
  t.is_active = false ∧ t.error = none

/-- Failed: `error` is present. -/
def StateFailed (t : ImportTask) : Prop :=
  t.error.isSome = true

/-- The task is in exactly one of the three states. -/
def exactlyOneState (t : ImportTask) : Prop :=
  (StateActive t ∧ ¬ StateSucceeded t ∧ ¬ StateFailed t) ∨
  (¬ StateActive t ∧ StateSucceeded t ∧ ¬ StateFailed t) ∨
  (¬ StateActive t ∧ ¬ StateSucceeded t ∧ StateFailed t)

/-- The specification's per-task invariant: exactly one state, and
`is_active` holds iff that state is Active. -/
def taskInvariant (t : ImportTask) : Prop :=
  exactlyOneState t ∧ (t.is_active = true ↔ StateActive t)

/-- Any inactive task satisfies the invariant: it is Succeeded or
Failed according to whether `error` is absent or present. -/
theorem taskInvariant_of_inactive {t : ImportTask}
    (h : t.is_active = false) : taskInvariant t := by
  rcases herr : t.error with _ | e
  · exact ⟨Or.inr (Or.inl (by simp [StateActive, StateSucceeded, StateFailed,
      h, herr])), by simp [StateActive, h]⟩
  · exact ⟨Or.inr (Or.inr (by simp [StateActive, StateSucceeded, StateFailed,
      h, herr])), by simp [StateActive, h]⟩

/-- Any active task with no error and no shapes satisfies the
invariant: it is in the Active state only. -/
theorem taskInvariant_of_active {t : ImportTask} (h : t.is_active = true)
    (herr : t.error = none) (hids : t.shape_ids = []) : taskInvariant t := by
  refine ⟨Or.inl ?_, by simp [StateActive, h, herr, hids]⟩
  simp [StateActive, StateSucceeded, StateFailed, h, herr, hids]

/-! ### Concrete fixtures used by counterexamples and witnesses -/

/-- A freshly submitted task whose future is still pending. -/
def exTaskPending : ImportTask :=
  { id := "import_1"
    file_path := "a.step"
    file_name := "a.step"
    format := "STEP"
    future := some .pending }

/-- The same task while its worker is executing. -/
def exTaskRunning : ImportTask :=
  { exTaskPending with future := some .running }

/-- A finished, inactive task. -/
def exTaskDone : ImportTask :=
  { exTaskPending with
      future := some .finished
      is_active := false
      progress := 1.0
      status_message := "Import completed: 0 shapes" }

/-- An empty tracker. -/
def exStateEmpty : ClientState := {}

/-- A tracker holding only the pending task. -/
def exStatePending : ClientState :=
  { import_tasks := [("import_1", exTaskPending)], task_counter := 1 }

/-- A tracker holding only the running task. -/
def exStateRunning : ClientState :=
  { import_tasks := [("import_1", exTaskRunning)], task_counter := 1 }

/-- A tracker holding only the finished task. -/
def exStateDone : ClientState :=
  { import_tasks := [("import_1", exTaskDone)], task_counter := 1 }

/-- A tracker holding one pending and one finished task. -/
def exStateMixed : ClientState :=
  { import_tasks := [("import_1", exTaskPending), ("import_2", exTaskDone)]
    task_counter := 2 }

/-! ### C1 -/

/-- C1 counterexample: the claim says `cancel` returns true only when
cancellation was actually applied.  With the future already running,
`Future.cancel()` cannot be applied (`futureCancelSucceeds .running =
false`), yet `cancel_import_task` returns true, because the code
ignores the boolean `Future.cancel()` returns. -/
theorem C1_counterexample :
    (cancel_import_task exStateRunning "import_1").2 = true ∧
    dictGet exStateRunning.import_tasks "import_1" = some exTaskRunning ∧
    exTaskRunning.future = some FutureState.running ∧
    futureCancelSucceeds FutureState.running = false :=
  ⟨rfl, rfl, rfl, rfl⟩

/-- C1 (amended): `cancel_import_task` returns true iff the id is
registered with a future that does not yet report done — whether or not
the underlying `Future.cancel()` was actually applied — and whenever it
returns true the stored task is marked inactive with status message
"Cancelled". -/
theorem C1_cancel_marks_cancelled (s : ClientState) (task_id : String) :
    ((cancel_import_task s task_id).2 = true ↔
      ∃ task f, dictGet s.import_tasks task_id = some task ∧
        task.future = some f ∧ futureDone f = false) ∧
    (∀ task f, dictGet s.import_tasks task_id = some task →
      task.future = some f → futureDone f = false →
      dictGet (cancel_import_task s task_id).1.import_tasks task_id =
        some { task with
                 future := some (futureAfterCancel f)
                 status_message := "Cancelled"
                 is_active := false }) := by
  constructor
  · constructor
    · intro h
      rcases hget : dictGet s.import_tasks task_id with _ | task
      · simp [cancel_import_task, hget] at h
      · rcases hfut : task.future with _ | f
        · simp [cancel_import_task, hget, hfut] at h
        · cases hdone : futureDone f with
          | false => exact ⟨task, f, rfl, hfut, hdone⟩
          | true => simp [cancel_import_task, hget, hfut, hdone] at h
    · rintro ⟨task, f, hget, hfut, hdone⟩
      simp [cancel_import_task, hget, hfut, hdone]
  · intro task f hget hfut hdone
    simp [cancel_import_task, hget, hfut, hdone, dictGet_dictSet_self]

/-- C1 witness: cancelling the concrete pending task marks it
"Cancelled" and inactive in the registry. -/
theorem C1_witness :
    dictGet (cancel_import_task exStatePending "import_1").1.import_tasks
        "import_1" =
      some { exTaskPending with
               future := some (futureAfterCancel FutureState.pending)
               status_message := "Cancelled"
               is_active := false } :=
  (C1_cancel_marks_cancelled exStatePending "import_1").2 exTaskPending
    FutureState.pending rfl rfl rfl

/-! ### C10 -/

/-- C10: for an unregistered id, a registered task without a future, or
a registered task whose future already reports done,
`cancel_import_task` returns false and leaves the task registry, the
observer registry and the whole tracker state unchanged. -/
theorem C10_cancel_noop_frame (s : ClientState) (task_id : String)
    (h : dictGet s.import_tasks task_id = none ∨
      ∃ task, dictGet s.import_tasks task_id = some task ∧
        (task.future = none ∨
          ∃ f, task.future = some f ∧ futureDone f = true)) :
    cancel_import_task s task_id = (s, false) := by
  rcases h with h | ⟨task, hget, h | ⟨f, hfut, hdone⟩⟩
  · simp [cancel_import_task, h]
  · simp [cancel_import_task, hget, h]
  · simp [cancel_import_task, hget, hfut, hdone]

/-- C10 witness: cancelling the finished task is a no-op returning
false. -/
theorem C10_witness :
    (dictGet exStateDone.import_tasks "import_1" = some exTaskDone ∧
      exTaskDone.future = some FutureState.finished ∧
      futureDone FutureState.finished = true) ∧
    cancel_import_task exStateDone "import_1" = (exStateDone, false) :=
  ⟨⟨rfl, rfl, rfl⟩,
    C10_cancel_noop_frame exStateDone "import_1"
      (Or.inr ⟨exTaskDone, rfl, Or.inr ⟨FutureState.finished, rfl, rfl⟩⟩)⟩

/-! ### C7 -/

/-- C7: `wait_for_import_completion` on an unknown id fails with the
ValueError (NotFound condition) leaving the tracker state unchanged,
and on a registered task whose future result does not arrive before
the deadline it fails with the TimeoutError (Timeout condition), again
leaving the tracker state — in particular the task record —
unchanged. -/
theorem C7_wait_notfound_timeout (s : ClientState) (task_id : String)
    (future_result : Option (Except String ModelImportResult)) :
    (dictGet s.import_tasks task_id = none →
      wait_for_import_completion s task_id future_result =
        (s, .error (.valueError ("Task " ++ task_id ++ " not found")))) ∧
    (∀ task f, dictGet s.import_tasks task_id = some task →
      task.future = some f →
      wait_for_import_completion s task_id none =
        (s, .error (.timeoutError
          ("Import task " ++ task_id ++ " timed out")))) := by
  constructor
  · intro h
    simp [wait_for_import_completion, h]
  · intro task f hget hfut
    simp [wait_for_import_completion, hget, hfut]

/-- C7 witness: waiting on an empty tracker raises the ValueError, and
waiting on the pending task with no result before the deadline raises
the TimeoutError. -/
theorem C7_witness :
    (dictGet exStateEmpty.import_tasks "nope" = none ∧
      wait_for_import_completion exStateEmpty "nope" none =
        (exStateEmpty,
          .error (.valueError ("Task " ++ "nope" ++ " not found")))) ∧
    wait_for_import_completion exStatePending "import_1" none =
      (exStatePending,
        .error (.timeoutError ("Import task " ++ "import_1" ++ " timed out"))) :=
  ⟨⟨rfl, (C7_wait_notfound_timeout exStateEmpty "nope" none).1 rfl⟩,
    (C7_wait_notfound_timeout exStatePending "import_1" none).2
      exTaskPending FutureState.pending rfl rfl⟩

/-! ### C9 -/

/-- C9: an exception raised by a registered progress observer is caught
inside `_notify_progress`: the call returns normally (the fault
surfaces only as the printed log line), and the tracker state — task
registry and observer registry — is unchanged. -/
theorem C9_observer_fault_swallowed (s : ClientState) (task : ImportTask)
    (cb : ProgressCallback) (e : String)
    (hcb : dictGet s.progress_callbacks task.id = some cb)
    (hfault : cb task = Except.error e) :
    _notify_progress s task =
      (s, some ("Progress callback error for " ++ task.id ++ ": " ++ e)) := by
  simp [_notify_progress, hcb, hfault]

/-- A callback that always raises. -/
def exFaultingCallback : ProgressCallback := fun _ => Except.error "boom"

/-- A tracker with a raising observer registered for the pending task. -/
def exStateFaultingObserver : ClientState :=
  { import_tasks := [("import_1", exTaskPending)]
    task_counter := 1
    progress_callbacks := [("import_1", exFaultingCallback)] }

/-- C9 witness: notifying with the always-raising observer returns
normally with the state unchanged and only the log line produced. -/
theorem C9_witness :
    exFaultingCallback exTaskPending = Except.error "boom" ∧
    _notify_progress exStateFaultingObserver exTaskPending =
      (exStateFaultingObserver,
        some ("Progress callback error for " ++ "import_1" ++ ": " ++ "boom")) :=
  ⟨rfl, C9_observer_fault_swallowed exStateFaultingObserver exTaskPending
      exFaultingCallback "boom" rfl rfl⟩

/-! ### C2 -/

/-- C2 counterexample: the claim says `cleanup` returns the count of
tasks removed.  On a tracker holding one completed task, cleanup does
remove that one task, but the Python method has no return statement:
its value is `None`, not the count `1`. -/
theorem C2_counterexample :
    (cleanup_completed_tasks exStateDone).1.import_tasks = [] ∧
    (cleanup_completed_tasks exStateDone).2 = none ∧
    (none : Option Nat) ≠ some 1 :=
  ⟨rfl, rfl, by simp⟩

/-- C2 (amended): `cleanup_completed_tasks` removes exactly those tasks
that are inactive and whose future is absent or reports done, removes
the observers registered for exactly those tasks, never removes a task
with `is_active = true` — but returns no removed count (the Python
method returns `None`; the count is only printed). -/
theorem C2_cleanup_removes_exactly_completed (s : ClientState)
    (hnd : (s.import_tasks.map Prod.fst).Nodup) :
    (∀ (task_id : String) (task : ImportTask),
      dictGet s.import_tasks task_id = some task →
      taskCompleted task = true →
      dictGet (cleanup_completed_tasks s).1.import_tasks task_id = none ∧
      dictGet (cleanup_completed_tasks s).1.progress_callbacks task_id =
        none) ∧
    (∀ (task_id : String) (task : ImportTask),
      dictGet s.import_tasks task_id = some task →
      taskCompleted task = false →
      dictGet (cleanup_completed_tasks s).1.import_tasks task_id =
        some task ∧
      dictGet (cleanup_completed_tasks s).1.progress_callbacks task_id =
        dictGet s.progress_callbacks task_id) ∧
    (∀ (task_id : String) (task : ImportTask),
      dictGet s.import_tasks task_id = some task →
      task.is_active = true →
      dictGet (cleanup_completed_tasks s).1.import_tasks task_id =
        some task) ∧
    (cleanup_completed_tasks s).2 = none := by
  have hout : ∀ {k : String},
      k ∈ (s.import_tasks.filter fun p => taskCompleted p.2).map Prod.fst →
      ∃ t, (k, t) ∈ s.import_tasks ∧ taskCompleted t = true := by
    intro k hk
    rcases List.mem_map.mp hk with ⟨p, hp, hpk⟩
    rcases List.mem_filter.mp hp with ⟨hmem, hpred⟩
    exact ⟨p.2, by rw [← hpk]; simpa using hmem, hpred⟩
  have hkeep : ∀ (task_id : String) (task : ImportTask),
      dictGet s.import_tasks task_id = some task →
      taskCompleted task = false →
      dictGet (cleanup_completed_tasks s).1.import_tasks task_id =
        some task ∧
      dictGet (cleanup_completed_tasks s).1.progress_callbacks task_id =
        dictGet s.progress_callbacks task_id := by
    intro k t hget hc
    have hk : k ∉
        (s.import_tasks.filter fun p => taskCompleted p.2).map Prod.fst := by
      intro hk
      rcases hout hk with ⟨t', hmem', hc'⟩
      have hgt := dictGet_eq_of_mem_nodup hnd hmem'
      rw [hget] at hgt
      obtain rfl := Option.some.inj hgt
      simp [hc] at hc'
    constructor
    · simp only [cleanup_completed_tasks]
      exact dictGet_filter_of_get hget (by simp [hk])
    · simp only [cleanup_completed_tasks]
      exact dictGet_filter_of_true fun v => by simp [hk]
  have hrem : ∀ (task_id : String) (task : ImportTask),
      dictGet s.import_tasks task_id = some task →
      taskCompleted task = true →
      dictGet (cleanup_completed_tasks s).1.import_tasks task_id = none ∧
      dictGet (cleanup_completed_tasks s).1.progress_callbacks task_id =
        none := by
    intro k t hget hc
    have hk : k ∈
        (s.import_tasks.filter fun p => taskCompleted p.2).map Prod.fst :=
      List.mem_map_of_mem Prod.fst
        (List.mem_filter.mpr ⟨dictGet_mem hget, hc⟩)
    constructor
    · simp only [cleanup_completed_tasks]
      exact dictGet_filter_of_false fun v => by simp [hk]
    · simp only [cleanup_completed_tasks]
      exact dictGet_filter_of_false fun v => by simp [hk]
  exact ⟨hrem, hkeep,
    fun k t hget hact =>
      (hkeep k t hget (by simp [taskCompleted, hact])).1,
    rfl⟩

/-- C2 witness: on the mixed tracker, cleanup keeps the active pending
task and removes the completed one. -/
theorem C2_witness :
    (exStateMixed.import_tasks.map Prod.fst).Nodup ∧
    taskCompleted exTaskPending = false ∧
    taskCompleted exTaskDone = true ∧
    dictGet (cleanup_completed_tasks exStateMixed).1.import_tasks
        "import_1" = some exTaskPending ∧
    dictGet (cleanup_completed_tasks exStateMixed).1.import_tasks
        "import_2" = none :=
  ⟨by decide, rfl, rfl,
    ((C2_cleanup_removes_exactly_completed exStateMixed (by decide)).2.1
      "import_1" exTaskPending rfl rfl).1,
    ((C2_cleanup_removes_exactly_completed exStateMixed (by decide)).1
      "import_2" exTaskDone rfl rfl).1⟩

/-! ### C3 -/

/-- A successful remote response with two shapes. -/
def exResponseOk : ImportModelResponse :=
  { success := true
    message := "ok"
    detected_format := "STEP"
    shape_ids := ["S1", "S2"]
    file_info := none }

/-- C3 counterexample: the claim states the first milestone's status
message as "preparing", but the worker writes "Preparing import...". -/
theorem C3_counterexample :
    ((_import_model_worker exTaskPending {} (Except.ok exResponseOk)).2.2.map
        ImportTask.status_message).head? = some "Preparing import..." ∧
    "Preparing import..." ≠ "preparing" :=
  ⟨rfl, by decide⟩

/-- C3 (amended): on a successful remote outcome the worker advances a
fresh task through exactly the four milestones with progress 0.1
("Preparing import..."), 0.3 ("Sending to server..."), 0.8 after the
call returns, and terminally 1.0 with `is_active = false`, `shape_ids`
equal to the response's identifiers, and `error` absent. -/
theorem C3_worker_success_milestones (task : ImportTask)
    (options : ModelImportOptions) (response : ImportModelResponse)
    (herr : task.error = none) (hs : response.success = true) :
    ((_import_model_worker task options (Except.ok response)).2.2.map
        ImportTask.progress = [0.1, 0.3, 0.8, 1.0]) ∧
    (((_import_model_worker task options (Except.ok response)).2.2.map
        ImportTask.status_message).take 2 =
      ["Preparing import...", "Sending to server..."]) ∧
    ((_import_model_worker task options (Except.ok response)).1 ∈
      (_import_model_worker task options (Except.ok response)).2.2) ∧
    ((_import_model_worker task options (Except.ok response)).1.progress =
      1.0) ∧
    ((_import_model_worker task options (Except.ok response)).1.is_active =
      false) ∧
    ((_import_model_worker task options (Except.ok response)).1.shape_ids =
      response.shape_ids) ∧
    ((_import_model_worker task options (Except.ok response)).1.error =
      none) := by
  rcases hfi : response.file_info with _ | fi <;>
    simp [_import_model_worker, hs, hfi, herr]

/-- C3 witness: the amended milestone run on the concrete fresh task
and the concrete successful response. -/
theorem C3_witness :
    exTaskPending.error = none ∧ exResponseOk.success = true ∧
    (_import_model_worker exTaskPending {} (Except.ok exResponseOk)).2.2.map
        ImportTask.progress = [0.1, 0.3, 0.8, 1.0] :=
  ⟨rfl, rfl,
    (C3_worker_success_milestones exTaskPending {} exResponseOk rfl rfl).1⟩

/-! ### C5 -/

/-- C5: when the remote call raises with text `e`, the worker records
`e` as the task's error, marks it inactive, notifies the observer with
the terminal snapshot, and re-raises `e`; a blocking wait on that task
then raises the RuntimeError whose description embeds the recorded
fault text. -/
theorem C5_fault_recorded_and_reraised (task : ImportTask)
    (options : ModelImportOptions) (e : String) (s : ClientState)
    (task_id : String) (t : ImportTask) (f : FutureState)
    (hreg : dictGet s.import_tasks task_id = some t)
    (hfut : t.future = some f) :
    ((_import_model_worker task options (Except.error e)).1.error =
      some e) ∧
    ((_import_model_worker task options (Except.error e)).1.is_active =
      false) ∧
    ((_import_model_worker task options (Except.error e)).2.1 =
      Except.error e) ∧
    ((_import_model_worker task options (Except.error e)).1 ∈
      (_import_model_worker task options (Except.error e)).2.2) ∧
    wait_for_import_completion s task_id (some (Except.error e)) =
      (s, Except.error (PyError.runtimeError
        ("Import task " ++ task_id ++ " failed: " ++ e))) := by
  refine ⟨rfl, rfl, rfl, ?_, ?_⟩
  · simp [_import_model_worker]
  · simp [wait_for_import_completion, hreg, hfut]

/-- C5 witness: a worker fault "boom" on the concrete pending task and
the wait that re-raises it. -/
theorem C5_witness :
    dictGet exStatePending.import_tasks "import_1" = some exTaskPending ∧
    exTaskPending.future = some FutureState.pending ∧
    (_import_model_worker exTaskPending {} (Except.error "boom")).1.error =
      some "boom" ∧
    wait_for_import_completion exStatePending "import_1"
        (some (Except.error "boom")) =
      (exStatePending, Except.error (PyError.runtimeError
        ("Import task " ++ "import_1" ++ " failed: " ++ "boom"))) :=
  ⟨rfl, rfl,
    (C5_fault_recorded_and_reraised exTaskPending {} "boom" exStatePending
      "import_1" exTaskPending FutureState.pending rfl rfl).1,
    (C5_fault_recorded_and_reraised exTaskPending {} "boom" exStatePending
      "import_1" exTaskPending FutureState.pending rfl rfl).2.2.2.2⟩

/-! ### C6 -/

/-- A failing remote response. -/
def exResponseFail : ImportModelResponse :=
  { success := false
    message := "file not found"
    detected_format := ""
    shape_ids := []
    file_info := none }

/-- C6: when the remote call returns a failure outcome, the worker
records the response message as the task's terminal error, marks it
inactive, leaves `shape_ids` empty, and returns a normal failure
result instead of raising; waiting on that task returns the failure
result without raising. -/
theorem C6_remote_failure_is_normal_result (task : ImportTask)
    (options : ModelImportOptions) (response : ImportModelResponse)
    (s : ClientState) (task_id : String) (t : ImportTask) (f : FutureState)
    (hs : response.success = false) (hids : task.shape_ids = [])
    (hreg : dictGet s.import_tasks task_id = some t)
    (hfut : t.future = some f) :
    ((_import_model_worker task options (Except.ok response)).1.error =
      some response.message) ∧
    ((_import_model_worker task options (Except.ok response)).1.is_active =
      false) ∧
    ((_import_model_worker task options (Except.ok response)).1.shape_ids =
      []) ∧
    ((_import_model_worker task options (Except.ok response)).2.1 =
      Except.ok { message := response.message }) ∧
    wait_for_import_completion s task_id
        (some (Except.ok { message := response.message })) =
      (s, Except.ok { message := response.message }) := by
  refine ⟨?_, ?_, ?_, ?_, ?_⟩ <;>
    simp [_import_model_worker, wait_for_import_completion, hs, hids,
      hreg, hfut]

/-- C6 witness: the concrete "file not found" failure outcome on the
fresh pending task. -/
theorem C6_witness :
    exResponseFail.success = false ∧ exTaskPending.shape_ids = [] ∧
    (_import_model_worker exTaskPending {} (Except.ok exResponseFail)).1.error
      = some "file not found" ∧
    wait_for_import_completion exStatePending "import_1"
        (some (Except.ok { message := "file not found" })) =
      (exStatePending, Except.ok { message := "file not found" }) :=
  ⟨rfl, rfl,
    (C6_remote_failure_is_normal_result exTaskPending {} exResponseFail
      exStatePending "import_1" exTaskPending FutureState.pending
      rfl rfl rfl rfl).1,
    (C6_remote_failure_is_normal_result exTaskPending {} exResponseFail
      exStatePending "import_1" exTaskPending FutureState.pending
      rfl rfl rfl rfl).2.2.2.2⟩

/-! ### C8 -/

/-- C8: starting from a fresh task (progress 0.0), the sequence of
progress values over the task's lifetime — creation followed by every
worker milestone, for any remote outcome — is non-decreasing and stays
within [0, 1]. -/
theorem C8_progress_monotone (task : ImportTask)
    (options : ModelImportOptions)
    (remote : Except String ImportModelResponse)
    (h0 : task.progress = 0.0) :
    List.Chain' (· ≤ ·)
      ((task :: (_import_model_worker task options remote).2.2).map
        ImportTask.progress) ∧
    ∀ p ∈ (task :: (_import_model_worker task options remote).2.2).map
        ImportTask.progress, 0 ≤ p ∧ p ≤ 1 := by
  rcases remote with e | response
  · have hmap :
        (task :: (_import_model_worker task options (Except.error e)).2.2).map
          ImportTask.progress = [0.0, 0.1, 0.3, 0.3] := by
      simp [_import_model_worker, h0]
    rw [hmap]
    constructor
    · norm_num [List.chain'_cons, List.chain'_singleton]
    · intro p hp
      fin_cases hp <;> norm_num
  · cases hsucc : response.success with
    | true =>
        have hmap :
            (task :: (_import_model_worker task options
              (Except.ok response)).2.2).map
              ImportTask.progress = [0.0, 0.1, 0.3, 0.8, 1.0] := by
          simp [_import_model_worker, hsucc, h0]
        rw [hmap]
        constructor
        · norm_num [List.chain'_cons, List.chain'_singleton]
        · intro p hp
          fin_cases hp <;> norm_num
    | false =>
        have hmap :
            (task :: (_import_model_worker task options
              (Except.ok response)).2.2).map
              ImportTask.progress = [0.0, 0.1, 0.3, 0.8, 0.8] := by
          simp [_import_model_worker, hsucc, h0]
        rw [hmap]
        constructor
        · norm_num [List.chain'_cons, List.chain'_singleton]
        · intro p hp
          fin_cases hp <;> norm_num

/-- C8 witness: the progress chain on the concrete successful run. -/
theorem C8_witness :
    exTaskPending.progress = 0.0 ∧
    List.Chain' (· ≤ ·)
      ((exTaskPending :: (_import_model_worker exTaskPending {}
          (Except.ok exResponseOk)).2.2).map ImportTask.progress) :=
  ⟨rfl,
    (C8_progress_monotone exTaskPending {} (Except.ok exResponseOk) rfl).1⟩

/-! ### C4 -/

/-- C4: every observation point keeps each task in exactly one of the
three states — Active (running, no result yet), Succeeded (terminated,
`error` absent) or Failed (`error` present) — with `is_active` true iff
the state is Active.  The four tracker operations preserve this:
submission creates an invariant-satisfying task and keeps all others,
the worker's milestone snapshots all satisfy it for a task submitted in
Active state, and cancel and cleanup preserve it for every registered
task. -/
theorem C4_three_state_invariant :
    (∀ (s : ClientState) (file_path : String)
        (cb : Option ProgressCallback) (task : ImportTask),
      dictGet (import_model_async s file_path cb).1.import_tasks
          (import_model_async s file_path cb).2 = some task →
      taskInvariant task) ∧
    (∀ (task : ImportTask) (options : ModelImportOptions)
        (remote : Except String ImportModelResponse),
      taskInvariant task → task.is_active = true →
      ∀ t ∈ (_import_model_worker task options remote).2.2,
        taskInvariant t) ∧
    (∀ (s : ClientState) (task_id : String),
      (∀ p ∈ s.import_tasks, taskInvariant p.2) →
      ∀ p ∈ (cancel_import_task s task_id).1.import_tasks,
        taskInvariant p.2) ∧
    (∀ s : ClientState,
      (∀ p ∈ s.import_tasks, taskInvariant p.2) →
      ∀ p ∈ (cleanup_completed_tasks s).1.import_tasks,
        taskInvariant p.2) := by
  refine ⟨?_, ?_, ?_, ?_⟩
  · intro s file_path cb task hget
    simp only [import_model_async] at hget
    rw [dictGet_dictSet_self] at hget
    obtain rfl := Option.some.inj hget
    exact taskInvariant_of_active rfl rfl rfl
  · intro task options remote hinv hact t ht
    obtain ⟨herr, hids⟩ := (hinv.2.mp hact).2
    rcases remote with e | response
    · simp [_import_model_worker] at ht
      rcases ht with rfl | rfl | rfl
      · exact taskInvariant_of_active hact herr hids
      · exact taskInvariant_of_active hact herr hids
      · exact taskInvariant_of_inactive rfl
    · cases hsucc : response.success with
      | true =>
          simp [_import_model_worker, hsucc] at ht
          rcases ht with rfl | rfl | rfl | rfl
          · exact taskInvariant_of_active hact herr hids
          · exact taskInvariant_of_active hact herr hids
          · exact taskInvariant_of_active hact herr hids
          · exact taskInvariant_of_inactive rfl
      | false =>
          simp [_import_model_worker, hsucc] at ht
          rcases ht with rfl | rfl | rfl | rfl
          · exact taskInvariant_of_active hact herr hids
          · exact taskInvariant_of_active hact herr hids
          · exact taskInvariant_of_active hact herr hids
          · exact taskInvariant_of_inactive rfl
  · intro s task_id hs p hp
    rcases hget : dictGet s.import_tasks task_id with _ | task
    · simp only [cancel_import_task, hget] at hp
      exact hs p hp
    · rcases hfut : task.future with _ | f
      · simp only [cancel_import_task, hget, hfut] at hp
        exact hs p hp
      · cases hdone : futureDone f with
        | true =>
            simp [cancel_import_task, hget, hfut, hdone] at hp
            exact hs p hp
        | false =>
            simp [cancel_import_task, hget, hfut, hdone] at hp
            rcases mem_dictSet hp with hp' | rfl
            · exact hs p hp'
            · exact taskInvariant_of_inactive rfl
  · intro s hs p hp
    simp only [cleanup_completed_tasks] at hp
    exact hs p (List.mem_filter.mp hp).1

/-- C4 witness: the task created by submitting "a.step" into an empty
tracker is exactly the pending fixture and satisfies the invariant. -/
theorem C4_witness :
    dictGet (import_model_async exStateEmpty "a.step" none).1.import_tasks
        (import_model_async exStateEmpty "a.step" none).2 =
      some exTaskPending ∧
    taskInvariant exTaskPending :=
  ⟨rfl,
    C4_three_state_invariant.1 exStateEmpty "a.step" none exTaskPending rfl⟩
